import Mathlib

/-!
Verification of `src/api.py` (csm-api-server): a FastAPI server with two
endpoints, `GET /health` and `POST /infer`.  The file shallowly embeds the
configuration handling, the command runner `run_inference_cli`, and the
request handler `infer`, and proves the specification claims about them.

External effects (the child process spawned by `subprocess.run`, the JSON
library, the filesystem state produced by the child) are modelled as
explicit oracle parameters, so each handler run is a pure function of the
configuration, the request data and those oracles.
-/

set_option maxRecDepth 16384

namespace CsmApi

/-- JSON values, as produced by Python's `json.loads` / `json.load`.
Numbers are restricted to integers (no claim involves non-integer
numbers). -/
inductive Json where
  | null : Json
  | bool (b : Bool) : Json
  | num (n : Int) : Json
  | str (s : String) : Json
  | arr (xs : List Json) : Json
  | obj (fields : List (String × Json)) : Json

/-- Whether a JSON value is an object (a Python `dict`). -/
def Json.isObj : Json → Bool
  | .obj _ => true
  | _ => false

/-- Python exceptions that the embedded code can raise. -/
inductive PyError where
  | runtimeError (msg : String)
  | keyError (key : String)
  | valueError (msg : String)
  | indexError (msg : String)
  | osError (msg : String)

/-- `str(e)` for the modelled exceptions: Python renders `KeyError` as the
repr of the missing key (quoted), and the others as their message. -/
def PyError.message : PyError → String
  | .runtimeError m => m
  | .keyError k => "\x27" ++ k ++ "\x27"
  | .valueError m => m
  | .indexError m => m
  | .osError m => m

/-- Python's substring test `pat in s`. -/
def strContains (s pat : String) : Bool :=
  decide (pat.toList <:+: s.toList)

/-- Python's `s.startswith(pat)`. -/
def pyStartswith (s pat : String) : Bool :=
  pat.toList.isPrefixOf s.toList

/-! ## Model of Python `str.format` with keyword arguments `input`, `output`

`INFERENCE_CMD.format(input=..., output=...)` (src/api.py line 54).
The format string is parsed into literal characters and replacement
fields; `\x7b\x7b` and `\x7d\x7d` are escapes for literal braces, a lone
`\x7d` raises `ValueError`, an unclosed field raises `ValueError`, an
empty field name raises `IndexError` (automatic numbering with no
positional arguments), and a field name other than `input`/`output`
raises `KeyError`.  Simplifications, stated for honesty: conversions and
format specifications after the field name are parsed but not applied
(they are identities for the plain string substitutions used here), and
attribute/index access inside a field name is not resolved (such a name
is treated as unknown).  No template in the repository or in the
theorems below uses those forms. -/

/-- One parsed element of a format string. -/
inductive FmtItem where
  | lit (c : Char) : FmtItem
  | fieldInput : FmtItem
  | fieldOutput : FmtItem

/-- Interpret a field name: `input` / `output` substitute the keyword
arguments, the empty name is automatic numbering (no positional
arguments were passed), anything else is an unknown keyword. -/
def lookupField (name : List Char) : Except PyError FmtItem :=
  if name = [] then
    .error (.indexError "Replacement index 0 out of range for positional args tuple")
  else if name = "input".toList then
    .ok .fieldInput
  else if name = "output".toList then
    .ok .fieldOutput
  else
    .error (.keyError (String.mk name))

/-- Parse a format string into items (fuel-indexed; `fuel ≥ length + 1`
suffices since each step consumes at least one character). -/
def parseFmt : Nat → List Char → Except PyError (List FmtItem)
  | 0, _ => .error (.valueError "out of fuel")
  | _ + 1, [] => .ok []
  | fuel + 1, '{' :: '{' :: rest =>
      (parseFmt fuel rest).map (fun items => .lit '{' :: items)
  | fuel + 1, '}' :: '}' :: rest =>
      (parseFmt fuel rest).map (fun items => .lit '}' :: items)
  | _ + 1, '}' :: _ =>
      .error (.valueError "Single \x27\x7d\x27 encountered in format string")
  | fuel + 1, '{' :: rest =>
      let name := rest.takeWhile (fun c => c ≠ '}' ∧ c ≠ ':' ∧ c ≠ '!')
      let after := rest.drop name.length
      match after with
      | [] => .error (.valueError "Single \x27\x7b\x27 encountered in format string")
      | '}' :: rest2 =>
          match lookupField name with
          | .error e => .error e
          | .ok item => (parseFmt fuel rest2).map (fun items => item :: items)
      | _ :: restSpec =>
          -- conversion or format spec: skip to the closing brace
          let spec := restSpec.takeWhile (fun c => c ≠ '}')
          match restSpec.drop spec.length with
          | [] => .error (.valueError "Single \x27\x7b\x27 encountered in format string")
          | _ :: rest2 =>
              match lookupField name with
              | .error e => .error e
              | .ok item => (parseFmt fuel rest2).map (fun items => item :: items)
  | fuel + 1, c :: rest =>
      (parseFmt fuel rest).map (fun items => .lit c :: items)

/-- Render parsed items with the two keyword arguments. -/
def renderFmt (inputVal outputVal : String) : List FmtItem → String
  | [] => ""
  | .lit c :: rest => String.mk [c] ++ renderFmt inputVal outputVal rest
  | .fieldInput :: rest => inputVal ++ renderFmt inputVal outputVal rest
  | .fieldOutput :: rest => outputVal ++ renderFmt inputVal outputVal rest

/-- `tmpl.format(input=inputVal, output=outputVal)`. -/
def pyFormat (tmpl inputVal outputVal : String) : Except PyError String :=
  (parseFmt (tmpl.toList.length + 1) tmpl.toList).map (renderFmt inputVal outputVal)

/-! ## Command runner: `run_inference_cli` (src/api.py lines 46-87) -/

/-- Outcome of `subprocess.run(cmd, shell=True, capture_output=True,
text=True, timeout=timeout)` together with the state of the output file
after the child exits.  `outputFile = some c` models
`os.path.exists(output_path)` true with file contents `c`; `none` models
the file not existing. -/
inductive ExecOutcome where
  | timedOut : ExecOutcome
  | completed (returncode : Int) (stdout stderr : String)
      (outputFile : Option String) : ExecOutcome

/-- Oracles for the external world consulted by the command runner:
`exec cmd timeout` is the result of running the concrete shell command,
and `jsonParse` models `json.loads` (and `json.load` applied to the
output file's contents): `none` means the parse raised. -/
structure RunEnv where
  exec : String → Nat → ExecOutcome
  jsonParse : String → Option Json

/-- `run_inference_cli(input_path, output_path, timeout=3600)`
(src/api.py lines 46-87), for a given configured `INFERENCE_CMD`. -/
def run_inference_cli (INFERENCE_CMD : String) (renv : RunEnv)
    (input_path output_path : String) (timeout : Nat := 3600) :
    Except PyError Json :=
  if ¬ (strContains INFERENCE_CMD "{input}" = true ∧
        strContains INFERENCE_CMD "{output}" = true) then
    .error (.runtimeError
      "INFERENCE_CMD must contain {input} and {output} placeholders")
  else
    match pyFormat INFERENCE_CMD input_path output_path with
    | .error e => .error e
    | .ok cmd =>
      match renv.exec cmd timeout with
      | .timedOut => .error (.runtimeError "Inference command timed out")
      | .completed rc stdout stderr outputFile =>
        if rc ≠ 0 then
          .error (.runtimeError
            ("Inference command failed (rc=" ++ toString rc ++ "): " ++ stderr))
        else
          match outputFile with
          | some contents =>
            match renv.jsonParse contents with
            | some v => .ok v
            | none => .ok (.obj [("stdout", .str stdout)])
          | none =>
            match renv.jsonParse stdout with
            | some v => .ok v
            | none => .ok (.obj [("stdout", .str stdout)])

/-! ## Configuration (src/api.py lines 15-33) -/

/-- The default inference command template (src/api.py lines 18-23), used
when the `INFERENCE_CMD` environment variable is unset. -/
def defaultInferenceCmd : String :=
  "echo \x27\x7b\"ok\": true, \"note\": \"Set INFERENCE_CMD to your CSM transcribe command\"\x7d\x27 > {output}"

/-! ## Health endpoint (src/api.py lines 38-44) -/

/-- The `HealthResp` pydantic model (src/api.py lines 38-40). -/
structure HealthResp where
  status : String
  inference_cmd : String

/-- Serialization of `HealthResp` to the JSON response body. -/
def HealthResp.toJson (r : HealthResp) : Json :=
  .obj [("status", .str r.status), ("inference_cmd", .str r.inference_cmd)]

/-- The `health` route handler (src/api.py lines 42-44). -/
def health (INFERENCE_CMD : String) : HealthResp :=
  { status := "ok", inference_cmd := INFERENCE_CMD }

/-- `GET /health` as (status code, JSON body). -/
def healthEndpoint (INFERENCE_CMD : String) : Nat × Json :=
  (200, (health INFERENCE_CMD).toJson)

/-! ## Request handler: `infer` (src/api.py lines 89-131) -/

/-- Split a character list on a separator character. -/
def splitOnChar (sep : Char) : List Char → List (List Char)
  | [] => [[]]
  | c :: rest =>
      let r := splitOnChar sep rest
      if c = sep then [] :: r
      else
        match r with
        | h :: t => (c :: h) :: t
        | [] => [[c]]

/-- `pathlib.PurePath.name`: the last nonempty path component. -/
def pathName (p : String) : String :=
  match ((splitOnChar '/' p.toList).filter (fun c => c ≠ [])).getLast? with
  | some n => String.mk n
  | none => ""

/-- `pathlib.PurePath.suffix` applied to a final component `name`:
the slice from the last dot, provided that dot is neither the first
character nor the last. -/
def pySuffix (name : String) : String :=
  let l := name.toList
  if '.' ∈ l then
    let i := l.length - 1 - (l.reverse.takeWhile (fun c => c ≠ '.')).length
    if 0 < i ∧ i < l.length - 1 then String.mk (l.drop i) else ""
  else ""

/-- What the handler hands back to the framework: a finished HTTP
response (including ones produced from a raised `HTTPException`, which
FastAPI renders as a JSON body with a `detail` field), or an exception
that escaped the handler. -/
inductive HandlerOutcome where
  | response (status : Nat) (body : Json) : HandlerOutcome
  | error (e : PyError) : HandlerOutcome

/-- Per-request data for one `/infer` call: the generated `uuid4` hex
identifier, the upload's metadata, and the result of
`f.write(await file.read())` — on success the number of bytes persisted
(which `Path(input_path).stat().st_size` then reports), on failure the
exception raised while reading or writing. -/
structure InferEnv where
  req_id : String
  filename : Option String
  content_type : Option String
  readResult : Except PyError Nat

/-- Observable result of one `/infer` call: the outcome delivered to the
framework, whether the scratch directory was created, whether it still
exists when the handler returns, and whether a content-type warning was
logged. -/
structure InferOutput where
  outcome : HandlerOutcome
  dirCreated : Bool
  dirExists : Bool
  warned : Bool

/-- The scratch directory `req_dir = WORK_DIR / req_id` (src/api.py
line 102). -/
def reqDirOf (workDir : String) (env : InferEnv) : String :=
  workDir ++ "/" ++ env.req_id

/-- `suffix = Path(file.filename).suffix or ".wav"` (src/api.py
line 105). -/
def suffixOf (env : InferEnv) : String :=
  let s := pySuffix (pathName (env.filename.getD ""))
  if s = "" then ".wav" else s

/-- `input_path = str(req_dir / f"input{suffix}")` (src/api.py
line 106). -/
def inputPathOf (workDir : String) (env : InferEnv) : String :=
  reqDirOf workDir env ++ "/input" ++ suffixOf env

/-- `output_path = str(req_dir / "out.json")` (src/api.py line 107). -/
def outputPathOf (workDir : String) (env : InferEnv) : String :=
  reqDirOf workDir env ++ "/out.json"

/-- The `infer` route handler (src/api.py lines 89-131).  `rmtreeRaises`
models whether `shutil.rmtree(req_dir)` in the `finally` block raises;
the code swallows that exception, leaving the directory behind. -/
def infer (INFERENCE_CMD workDir : String) (renv : RunEnv) (env : InferEnv)
    (rmtreeRaises : Bool) : InferOutput :=
  if env.filename = none ∨ env.filename = some "" then
    { outcome := .response 400 (.obj [("detail", .str "No filename provided")]),
      dirCreated := false, dirExists := false, warned := false }
  else
    let warned : Bool :=
      match env.content_type with
      | some ct => ct ≠ "" && ! pyStartswith ct "audio"
      | none => false
    let bodyOutcome : HandlerOutcome :=
      match env.readResult with
      | .error e => .error e
      | .ok size =>
        if size = 0 then
          .response 400 (.obj [("detail", .str "Uploaded file is empty")])
        else
          match run_inference_cli INFERENCE_CMD renv
              (inputPathOf workDir env) (outputPathOf workDir env) with
          | .error e =>
              .response 500
                (.obj [("detail", .str ("Inference error: " ++ e.message))])
          | .ok result => .response 200 result
    { outcome := bodyOutcome, dirCreated := true, dirExists := rmtreeRaises,
      warned := warned }

/-- The HTTP status of a handler outcome, when the handler produced a
response rather than letting an exception escape. -/
def HandlerOutcome.statusOf : HandlerOutcome → Option Nat
  | .response s _ => some s
  | .error _ => none

/-! ## Helper lemmas about substring containment -/

theorem toList_app (s t : String) : (s ++ t).toList = s.toList ++ t.toList := by
  cases s
  cases t
  rfl

theorem strContains_iff {s pat : String} :
    strContains s pat = true ↔ pat.toList <:+: s.toList := by
  simp [strContains]

theorem strContains_self (s : String) : strContains s s = true := by
  exact strContains_iff.mpr (List.infix_refl _)

theorem strContains_appendRight {s pat : String} (t : String)
    (h : strContains s pat = true) : strContains (s ++ t) pat = true := by
  rw [strContains_iff] at h ⊢
  rw [toList_app]
  obtain ⟨a, b, hab⟩ := h
  exact ⟨a, b ++ t.toList, by rw [← hab]; simp⟩

theorem strContains_appendLeft {s pat : String} (t : String)
    (h : strContains s pat = true) : strContains (t ++ s) pat = true := by
  rw [strContains_iff] at h ⊢
  rw [toList_app]
  obtain ⟨a, b, hab⟩ := h
  exact ⟨t.toList ++ a, b, by rw [← hab]; simp⟩

/-! ## Concrete fixtures for witnesses -/

/-- A well-formed upload: nonempty filename with a `.wav` extension, an
audio content type, and four persisted bytes. -/
def sampleEnv : InferEnv :=
  { req_id := "deadbeef", filename := some "a.wav",
    content_type := some "audio/wav", readResult := .ok 4 }

/-- A world in which the child process writes a stub JSON object to the
output file and exits 0, and the JSON parser recognises exactly that
text. -/
def stubRenv : RunEnv :=
  { exec := fun _ _ => .completed 0 "" "" (some "\x7b\"ok\": true\x7d"),
    jsonParse := fun s =>
      if s = "\x7b\"ok\": true\x7d" then some (.obj [("ok", .bool true)])
      else none }

/-! ## Claim theorems -/

/-- C8: `GET /health` always returns HTTP 200 with the JSON body
{"status": "ok", "inference_cmd": <the exact configured command template
string>}; it is a pure function of the configuration, so it performs no
validation and has no side effects. -/
theorem health_always_ok (INFERENCE_CMD : String) :
    healthEndpoint INFERENCE_CMD =
      (200, .obj [("status", .str "ok"),
                  ("inference_cmd", .str INFERENCE_CMD)]) := rfl

/-- C4: the claim fails on the code.  The default command template
contains the output placeholder but not the input placeholder, so under
the default configuration every valid non-empty upload makes
`run_inference_cli` raise the placeholder configuration error and
`/infer` answer HTTP 500 — not 200 with the stub JSON. -/
theorem default_cmd_misconfigured :
    strContains defaultInferenceCmd "{output}" = true ∧
    strContains defaultInferenceCmd "{input}" = false ∧
    (infer defaultInferenceCmd "/tmp/csm_api" stubRenv sampleEnv false).outcome =
      .response 500 (.obj [("detail",
        .str "Inference error: INFERENCE_CMD must contain {input} and {output} placeholders")]) := by
  refine ⟨by decide, by decide, rfl⟩

/-- C1: on every handler path, once the scratch directory has been
created it is removed before the handler returns (whenever the removal
itself does not fail), and an error raised during removal is swallowed:
the outcome and the warning flag are unchanged whether or not `rmtree`
raises. -/
theorem infer_scratch_cleanup (INFERENCE_CMD workDir : String) (renv : RunEnv)
    (env : InferEnv) :
    ((infer INFERENCE_CMD workDir renv env false).dirCreated = true →
      (infer INFERENCE_CMD workDir renv env false).dirExists = false) ∧
    (∀ rm : Bool,
      (infer INFERENCE_CMD workDir renv env rm).outcome =
        (infer INFERENCE_CMD workDir renv env false).outcome ∧
      (infer INFERENCE_CMD workDir renv env rm).warned =
        (infer INFERENCE_CMD workDir renv env false).warned) := by
  by_cases h : env.filename = none ∨ env.filename = some ""
  · simp [infer, h]
  · simp [infer, h]

/-- Witness for C1 at a concrete request: the scratch directory is gone
after a successful call, and a failing `rmtree` does not change the
response. -/
theorem infer_scratch_cleanup_witness :
    (infer "run {input} {output}" "/tmp/csm_api" stubRenv sampleEnv false).dirExists = false ∧
    (infer "run {input} {output}" "/tmp/csm_api" stubRenv sampleEnv true).outcome =
      (infer "run {input} {output}" "/tmp/csm_api" stubRenv sampleEnv false).outcome :=
  ⟨(infer_scratch_cleanup "run {input} {output}" "/tmp/csm_api" stubRenv sampleEnv).1 rfl,
   ((infer_scratch_cleanup "run {input} {output}" "/tmp/csm_api" stubRenv sampleEnv).2 true).1⟩

/-- C7: the handler answers 400 when the upload has no filename (missing
or empty), answers 400 whenever the persisted size is zero regardless of
the filename, and treats a non-audio declared content type as a warning
only: the warning flag is set exactly for a nonempty content type not
starting with "audio", and the outcome never depends on the content
type. -/
theorem infer_upload_validation (INFERENCE_CMD workDir : String) (renv : RunEnv)
    (env : InferEnv) (rm : Bool) :
    ((env.filename = none ∨ env.filename = some "") →
      (infer INFERENCE_CMD workDir renv env rm).outcome =
        .response 400 (.obj [("detail", .str "No filename provided")])) ∧
    (env.readResult = .ok 0 →
      ((infer INFERENCE_CMD workDir renv env rm).outcome).statusOf = some 400) ∧
    (∀ ct₁ ct₂ : Option String,
      (infer INFERENCE_CMD workDir renv { env with content_type := ct₁ } rm).outcome =
        (infer INFERENCE_CMD workDir renv { env with content_type := ct₂ } rm).outcome) ∧
    (∀ ct : String, ¬ (env.filename = none ∨ env.filename = some "") →
      (infer INFERENCE_CMD workDir renv { env with content_type := some ct } rm).warned =
        (ct ≠ "" && ! pyStartswith ct "audio")) := by
  refine ⟨fun h => by simp [infer, h], fun h => ?_, fun ct₁ ct₂ => ?_, fun ct h => ?_⟩
  · by_cases hf : env.filename = none ∨ env.filename = some ""
    · simp [infer, hf, HandlerOutcome.statusOf]
    · simp [infer, hf, h, HandlerOutcome.statusOf]
  · by_cases hf : env.filename = none ∨ env.filename = some ""
    · simp [infer, hf]
    · simp [infer, hf, inputPathOf, outputPathOf, reqDirOf, suffixOf]
  · simp [infer, h]

/-- Witness for C7: a missing filename gives 400, an empty persisted
upload gives 400 despite a good filename, and a text content type only
sets the warning flag. -/
theorem infer_upload_validation_witness :
    (infer "run {input} {output}" "/tmp/csm_api" stubRenv
        { req_id := "r1", filename := none, content_type := none,
          readResult := .ok 3 } false).outcome =
      .response 400 (.obj [("detail", .str "No filename provided")]) ∧
    ((infer "run {input} {output}" "/tmp/csm_api" stubRenv
        { req_id := "r2", filename := some "a.wav",
          content_type := some "audio/wav",
          readResult := .ok 0 } false).outcome).statusOf = some 400 ∧
    (infer "run {input} {output}" "/tmp/csm_api" stubRenv
        { sampleEnv with content_type := some "text/plain" } false).warned = true := by
  refine ⟨(infer_upload_validation "run {input} {output}" "/tmp/csm_api" stubRenv
      { req_id := "r1", filename := none, content_type := none,
        readResult := .ok 3 } false).1 (Or.inl rfl),
    (infer_upload_validation "run {input} {output}" "/tmp/csm_api" stubRenv
      { req_id := "r2", filename := some "a.wav",
        content_type := some "audio/wav",
        readResult := .ok 0 } false).2.1 rfl,
    ((infer_upload_validation "run {input} {output}" "/tmp/csm_api" stubRenv
      sampleEnv false).2.2.2 "text/plain" (by decide)).trans (by decide)⟩

/-- A world in which the child process exits 1 with stderr "boom". -/
def failRenv : RunEnv :=
  { exec := fun _ _ => .completed 1 "" "boom" none,
    jsonParse := fun _ => none }

/-- A world in which the child process never finishes in time. -/
def slowRenv : RunEnv :=
  { exec := fun _ _ => .timedOut, jsonParse := fun _ => none }

/-- C3: when the configured template lacks the input token or the output
token, `run_inference_cli` fails at once with the configuration error,
no child process is spawned (the result does not depend on the execution
oracles at all), and every valid non-empty upload gets HTTP 500 with a
detail message naming the missing placeholders. -/
theorem missing_placeholders_config_error (INFERENCE_CMD workDir i o : String)
    (t n : Nat) (renv renv₂ : RunEnv) (env : InferEnv) (rm : Bool)
    (hmiss : strContains INFERENCE_CMD "{input}" = false ∨
             strContains INFERENCE_CMD "{output}" = false)
    (hname : ¬ (env.filename = none ∨ env.filename = some ""))
    (hread : env.readResult = .ok n) (hn : n ≠ 0) :
    run_inference_cli INFERENCE_CMD renv i o t =
      .error (.runtimeError
        "INFERENCE_CMD must contain {input} and {output} placeholders") ∧
    run_inference_cli INFERENCE_CMD renv i o t =
      run_inference_cli INFERENCE_CMD renv₂ i o t ∧
    (infer INFERENCE_CMD workDir renv env rm).outcome =
      .response 500 (.obj [("detail",
        .str "Inference error: INFERENCE_CMD must contain {input} and {output} placeholders")]) := by
  have hcond : ¬ (strContains INFERENCE_CMD "{input}" = true ∧
                  strContains INFERENCE_CMD "{output}" = true) := by
    rcases hmiss with h | h <;> simp [h]
  refine ⟨by simp [run_inference_cli, hcond], by simp [run_inference_cli, hcond], ?_⟩
  simp [infer, hname, hread, hn, run_inference_cli, hcond, PyError.message]

/-- Witness for C3 at a template missing the output token. -/
theorem missing_placeholders_config_error_witness :
    run_inference_cli "run {input}" stubRenv "/i" "/o" 3600 =
      .error (.runtimeError
        "INFERENCE_CMD must contain {input} and {output} placeholders") ∧
    (infer "run {input}" "/tmp/csm_api" stubRenv sampleEnv false).outcome =
      .response 500 (.obj [("detail",
        .str "Inference error: INFERENCE_CMD must contain {input} and {output} placeholders")]) := by
  have h := missing_placeholders_config_error "run {input}" "/tmp/csm_api" "/i" "/o"
    3600 4 stubRenv stubRenv sampleEnv false (Or.inr (by decide)) (by decide) rfl
    (by decide)
  exact ⟨h.1, h.2.2⟩

/-- C5: a non-zero child exit status makes `run_inference_cli` fail with
a message carrying both the exit code and the captured stderr text, and
makes `/infer` answer HTTP 500 with a detail string containing that
stderr text. -/
theorem nonzero_exit_surfaces_stderr (INFERENCE_CMD workDir cl : String)
    (renv : RunEnv) (env : InferEnv) (rm : Bool) (n : Nat) (rc : Int)
    (stdout stderr : String) (ofile : Option String)
    (hplace : strContains INFERENCE_CMD "{input}" = true ∧
              strContains INFERENCE_CMD "{output}" = true)
    (hfmt : pyFormat INFERENCE_CMD (inputPathOf workDir env)
        (outputPathOf workDir env) = .ok cl)
    (hexec : renv.exec cl 3600 = .completed rc stdout stderr ofile)
    (hrc : rc ≠ 0)
    (hname : ¬ (env.filename = none ∨ env.filename = some ""))
    (hread : env.readResult = .ok n) (hn : n ≠ 0) :
    run_inference_cli INFERENCE_CMD renv (inputPathOf workDir env)
        (outputPathOf workDir env) =
      .error (.runtimeError
        ("Inference command failed (rc=" ++ toString rc ++ "): " ++ stderr)) ∧
    strContains ("Inference command failed (rc=" ++ toString rc ++ "): " ++ stderr)
      (toString rc) = true ∧
    strContains ("Inference command failed (rc=" ++ toString rc ++ "): " ++ stderr)
      stderr = true ∧
    (infer INFERENCE_CMD workDir renv env rm).outcome =
      .response 500 (.obj [("detail", .str ("Inference error: " ++
        ("Inference command failed (rc=" ++ toString rc ++ "): " ++ stderr)))]) ∧
    strContains ("Inference error: " ++
        ("Inference command failed (rc=" ++ toString rc ++ "): " ++ stderr))
      stderr = true := by
  have hrun : run_inference_cli INFERENCE_CMD renv (inputPathOf workDir env)
      (outputPathOf workDir env) =
      .error (.runtimeError
        ("Inference command failed (rc=" ++ toString rc ++ "): " ++ stderr)) := by
    unfold run_inference_cli
    rw [if_neg (by simp [hplace.1, hplace.2]), hfmt]
    simp [hexec, hrc]
  have hrcIn : strContains
      ("Inference command failed (rc=" ++ toString rc ++ "): " ++ stderr)
      (toString rc) = true :=
    strContains_appendRight stderr (strContains_appendRight "): "
      (strContains_appendLeft "Inference command failed (rc="
        (strContains_self (toString rc))))
  have herrIn : strContains
      ("Inference command failed (rc=" ++ toString rc ++ "): " ++ stderr)
      stderr = true :=
    strContains_appendLeft ("Inference command failed (rc=" ++ toString rc ++ "): ")
      (strContains_self stderr)
  refine ⟨hrun, hrcIn, herrIn, ?_, strContains_appendLeft "Inference error: " herrIn⟩
  simp [infer, hname, hread, hn, hrun, PyError.message]

/-- Witness for C5: exit code 1 with stderr "boom". -/
theorem nonzero_exit_surfaces_stderr_witness :
    (infer "run {input} {output}" "/tmp/csm_api" failRenv sampleEnv false).outcome =
      .response 500 (.obj [("detail", .str ("Inference error: " ++
        ("Inference command failed (rc=" ++ toString (1 : Int) ++ "): " ++ "boom")))]) ∧
    strContains ("Inference error: " ++
        ("Inference command failed (rc=" ++ toString (1 : Int) ++ "): " ++ "boom"))
      "boom" = true := by
  have h := nonzero_exit_surfaces_stderr "run {input} {output}" "/tmp/csm_api"
    "run /tmp/csm_api/deadbeef/input.wav /tmp/csm_api/deadbeef/out.json"
    failRenv sampleEnv false 4 1 "" "boom" none ⟨by decide, by decide⟩ (by rfl) rfl
    (by decide) (by decide) rfl (by decide)
  exact ⟨h.2.2.2.1, h.2.2.2.2⟩

/-- C6: the command runner's default timeout is one hour (3600 seconds)
and `/infer` always calls the runner with that default; when the child
exceeds the timeout the runner fails with the timeout error and `/infer`
answers HTTP 500 with a timeout-indicating detail message. -/
theorem timeout_yields_500 (INFERENCE_CMD workDir cl : String) (renv : RunEnv)
    (env : InferEnv) (rm : Bool) (n : Nat)
    (hplace : strContains INFERENCE_CMD "{input}" = true ∧
              strContains INFERENCE_CMD "{output}" = true)
    (hfmt : pyFormat INFERENCE_CMD (inputPathOf workDir env)
        (outputPathOf workDir env) = .ok cl)
    (hexec : renv.exec cl 3600 = .timedOut)
    (hname : ¬ (env.filename = none ∨ env.filename = some ""))
    (hread : env.readResult = .ok n) (hn : n ≠ 0) :
    (∀ (renv₃ : RunEnv) (i o : String),
      run_inference_cli INFERENCE_CMD renv₃ i o =
        run_inference_cli INFERENCE_CMD renv₃ i o 3600) ∧
    run_inference_cli INFERENCE_CMD renv (inputPathOf workDir env)
        (outputPathOf workDir env) =
      .error (.runtimeError "Inference command timed out") ∧
    (infer INFERENCE_CMD workDir renv env rm).outcome =
      .response 500 (.obj [("detail",
        .str "Inference error: Inference command timed out")]) ∧
    strContains "Inference error: Inference command timed out" "timed out" = true := by
  have hrun : run_inference_cli INFERENCE_CMD renv (inputPathOf workDir env)
      (outputPathOf workDir env) =
      .error (.runtimeError "Inference command timed out") := by
    unfold run_inference_cli
    rw [if_neg (by simp [hplace.1, hplace.2]), hfmt]
    simp [hexec]
  refine ⟨fun _ _ _ => rfl, hrun, ?_, by decide⟩
  simp [infer, hname, hread, hn, hrun, PyError.message]

/-- Witness for C6: a child that never finishes in time. -/
theorem timeout_yields_500_witness :
    run_inference_cli "run {input} {output}" slowRenv
        (inputPathOf "/tmp/csm_api" sampleEnv) (outputPathOf "/tmp/csm_api" sampleEnv) =
      .error (.runtimeError "Inference command timed out") ∧
    (infer "run {input} {output}" "/tmp/csm_api" slowRenv sampleEnv false).outcome =
      .response 500 (.obj [("detail",
        .str "Inference error: Inference command timed out")]) := by
  have h := timeout_yields_500 "run {input} {output}" "/tmp/csm_api"
    "run /tmp/csm_api/deadbeef/input.wav /tmp/csm_api/deadbeef/out.json"
    slowRenv sampleEnv false 4 ⟨by decide, by decide⟩ (by rfl) rfl (by decide) rfl
    (by decide)
  exact ⟨h.2.1, h.2.2.1⟩

/-- A world in which the child process writes nothing to the output file
and emits non-JSON text on stdout. -/
def rawRenv : RunEnv :=
  { exec := fun _ _ => .completed 0 "hello world" "" none,
    jsonParse := fun _ => none }

/-- A world in which the child process emits a JSON array on stdout and
writes no output file. -/
def arrRenv : RunEnv :=
  { exec := fun _ _ => .completed 0 "[1, 2]" "" none,
    jsonParse := fun s =>
      if s = "[1, 2]" then some (.arr [.num 1, .num 2]) else none }

/-- A command template that contains both placeholders and embedded
literal JSON braces (the braces are unescaped, so `str.format` raises
`KeyError` on the field name `"ok"`). -/
def embeddedJsonCmd : String :=
  "echo \x27\x7b\"ok\": true\x7d\x27 > {output}; cat {input}"

/-- C2: on a zero exit status the result follows the ordered fallback:
(a) an existing output file is parsed as JSON and returned; if that
parse fails the result wraps the captured stdout; (b) with no output
file, stdout is parsed as JSON and returned; (c) if that parse fails
too, the raw stdout is wrapped under the "stdout" key.  Each case is
stated through the full `/infer` pipeline as a 200 response. -/
theorem zero_exit_result_fallback (INFERENCE_CMD workDir cl : String)
    (renv : RunEnv) (env : InferEnv) (rm : Bool) (n : Nat)
    (stdout stderr : String) (ofile : Option String)
    (hplace : strContains INFERENCE_CMD "{input}" = true ∧
              strContains INFERENCE_CMD "{output}" = true)
    (hfmt : pyFormat INFERENCE_CMD (inputPathOf workDir env)
        (outputPathOf workDir env) = .ok cl)
    (hexec : renv.exec cl 3600 = .completed 0 stdout stderr ofile)
    (hname : ¬ (env.filename = none ∨ env.filename = some ""))
    (hread : env.readResult = .ok n) (hn : n ≠ 0) :
    (∀ c v, ofile = some c → renv.jsonParse c = some v →
      (infer INFERENCE_CMD workDir renv env rm).outcome = .response 200 v) ∧
    (∀ c, ofile = some c → renv.jsonParse c = none →
      (infer INFERENCE_CMD workDir renv env rm).outcome =
        .response 200 (.obj [("stdout", .str stdout)])) ∧
    (ofile = none → ∀ v, renv.jsonParse stdout = some v →
      (infer INFERENCE_CMD workDir renv env rm).outcome = .response 200 v) ∧
    (ofile = none → renv.jsonParse stdout = none →
      (infer INFERENCE_CMD workDir renv env rm).outcome =
        .response 200 (.obj [("stdout", .str stdout)])) := by
  refine ⟨fun c v hc hp => ?_, fun c hc hp => ?_, fun hc v hp => ?_, fun hc hp => ?_⟩
  · subst hc
    have hrun : run_inference_cli INFERENCE_CMD renv (inputPathOf workDir env)
        (outputPathOf workDir env) = .ok v := by
      unfold run_inference_cli
      rw [if_neg (by simp [hplace.1, hplace.2]), hfmt]
      simp [hexec, hp]
    simp [infer, hname, hread, hn, hrun]
  · subst hc
    have hrun : run_inference_cli INFERENCE_CMD renv (inputPathOf workDir env)
        (outputPathOf workDir env) = .ok (.obj [("stdout", .str stdout)]) := by
      unfold run_inference_cli
      rw [if_neg (by simp [hplace.1, hplace.2]), hfmt]
      simp [hexec, hp]
    simp [infer, hname, hread, hn, hrun]
  · subst hc
    have hrun : run_inference_cli INFERENCE_CMD renv (inputPathOf workDir env)
        (outputPathOf workDir env) = .ok v := by
      unfold run_inference_cli
      rw [if_neg (by simp [hplace.1, hplace.2]), hfmt]
      simp [hexec, hp]
    simp [infer, hname, hread, hn, hrun]
  · subst hc
    have hrun : run_inference_cli INFERENCE_CMD renv (inputPathOf workDir env)
        (outputPathOf workDir env) = .ok (.obj [("stdout", .str stdout)]) := by
      unfold run_inference_cli
      rw [if_neg (by simp [hplace.1, hplace.2]), hfmt]
      simp [hexec, hp]
    simp [infer, hname, hread, hn, hrun]

/-- Witness for C2: a command that writes the stub object to the output
file yields 200 with that object, and a command that prints non-JSON
text with no output file yields 200 wrapping the raw text. -/
theorem zero_exit_result_fallback_witness :
    (infer "run {input} {output}" "/tmp/csm_api" stubRenv sampleEnv false).outcome =
      .response 200 (.obj [("ok", .bool true)]) ∧
    (infer "run {input} {output}" "/tmp/csm_api" rawRenv sampleEnv false).outcome =
      .response 200 (.obj [("stdout", .str "hello world")]) := by
  refine ⟨(zero_exit_result_fallback "run {input} {output}" "/tmp/csm_api"
      "run /tmp/csm_api/deadbeef/input.wav /tmp/csm_api/deadbeef/out.json"
      stubRenv sampleEnv false 4 "" "" (some "\x7b\"ok\": true\x7d")
      ⟨by decide, by decide⟩ (by rfl) rfl (by decide) rfl (by decide)).1
        _ _ rfl (by rfl),
    (zero_exit_result_fallback "run {input} {output}" "/tmp/csm_api"
      "run /tmp/csm_api/deadbeef/input.wav /tmp/csm_api/deadbeef/out.json"
      rawRenv sampleEnv false 4 "hello world" "" none
      ⟨by decide, by decide⟩ (by rfl) rfl (by decide) rfl (by decide)).2.2.2
        rfl (by rfl)⟩

/-- C9: with no output file and stdout parsing as a JSON value that is
not an object, the runner returns that value verbatim and `/infer`
serves it as the 200 response body; it is never wrapped under the
"stdout" key. -/
theorem nonobject_stdout_served_verbatim (INFERENCE_CMD workDir cl : String)
    (renv : RunEnv) (env : InferEnv) (rm : Bool) (n : Nat)
    (stdout stderr : String) (v : Json)
    (hplace : strContains INFERENCE_CMD "{input}" = true ∧
              strContains INFERENCE_CMD "{output}" = true)
    (hfmt : pyFormat INFERENCE_CMD (inputPathOf workDir env)
        (outputPathOf workDir env) = .ok cl)
    (hexec : renv.exec cl 3600 = .completed 0 stdout stderr none)
    (hparse : renv.jsonParse stdout = some v)
    (hnotobj : v.isObj = false)
    (hname : ¬ (env.filename = none ∨ env.filename = some ""))
    (hread : env.readResult = .ok n) (hn : n ≠ 0) :
    run_inference_cli INFERENCE_CMD renv (inputPathOf workDir env)
        (outputPathOf workDir env) = .ok v ∧
    (infer INFERENCE_CMD workDir renv env rm).outcome = .response 200 v ∧
    (∀ s : String, v ≠ .obj [("stdout", .str s)]) := by
  have hrun : run_inference_cli INFERENCE_CMD renv (inputPathOf workDir env)
      (outputPathOf workDir env) = .ok v := by
    unfold run_inference_cli
    rw [if_neg (by simp [hplace.1, hplace.2]), hfmt]
    simp [hexec, hparse]
  refine ⟨hrun, by simp [infer, hname, hread, hn, hrun], fun s hv => ?_⟩
  rw [hv] at hnotobj
  simp [Json.isObj] at hnotobj

/-- Witness for C9: a JSON array on stdout is served verbatim. -/
theorem nonobject_stdout_served_verbatim_witness :
    (infer "run {input} {output}" "/tmp/csm_api" arrRenv sampleEnv false).outcome =
      .response 200 (.arr [.num 1, .num 2]) ∧
    Json.isObj (.arr [.num 1, .num 2]) = false :=
  ⟨(nonobject_stdout_served_verbatim "run {input} {output}" "/tmp/csm_api"
      "run /tmp/csm_api/deadbeef/input.wav /tmp/csm_api/deadbeef/out.json"
      arrRenv sampleEnv false 4 "[1, 2]" "" (.arr [.num 1, .num 2])
      ⟨by decide, by decide⟩ (by rfl) rfl (by rfl) rfl (by decide) rfl
      (by decide)).2.1, rfl⟩

/-- C10 is false as stated: a template may contain both placeholders and
further literal brace-delimited text that is escaped by doubling, and
then the substitution succeeds and a valid upload is answered 200, not
500.  The template below contains the brace-delimited text {x} (doubled
braces in the template), both placeholders, formats successfully, and a
valid request succeeds. -/
theorem extra_braces_counterexample :
    strContains "run {input} {output} \x7b\x7bx\x7d\x7d" "{input}" = true ∧
    strContains "run {input} {output} \x7b\x7bx\x7d\x7d" "{output}" = true ∧
    strContains "run {input} {output} \x7b\x7bx\x7d\x7d" "\x7bx\x7d" = true ∧
    pyFormat "run {input} {output} \x7b\x7bx\x7d\x7d" "IN" "OUT" =
      .ok "run IN OUT \x7bx\x7d" ∧
    (infer "run {input} {output} \x7b\x7bx\x7d\x7d" "/tmp/csm_api" stubRenv
        sampleEnv false).outcome = .response 200 (.obj [("ok", .bool true)]) := by
  exact ⟨by decide, by decide, by decide, by rfl, by rfl⟩

/-- C10 amended: when a template contains both placeholders but the
substitution itself fails — it contains an unescaped replacement field
other than the two placeholders (for example embedded JSON braces), a
stray brace, or an unclosed field — `run_inference_cli` raises before
any child process is spawned (the result does not depend on the
execution oracles), and every valid non-empty upload is answered HTTP
500.  Doubled braces are escapes and do not raise. -/
theorem format_failure_yields_500 (INFERENCE_CMD workDir : String)
    (renv renv₂ : RunEnv) (env : InferEnv) (rm : Bool) (n : Nat) (e : PyError)
    (hplace : strContains INFERENCE_CMD "{input}" = true ∧
              strContains INFERENCE_CMD "{output}" = true)
    (hfmt : pyFormat INFERENCE_CMD (inputPathOf workDir env)
        (outputPathOf workDir env) = .error e)
    (hname : ¬ (env.filename = none ∨ env.filename = some ""))
    (hread : env.readResult = .ok n) (hn : n ≠ 0) :
    run_inference_cli INFERENCE_CMD renv (inputPathOf workDir env)
        (outputPathOf workDir env) = .error e ∧
    run_inference_cli INFERENCE_CMD renv (inputPathOf workDir env)
        (outputPathOf workDir env) =
      run_inference_cli INFERENCE_CMD renv₂ (inputPathOf workDir env)
        (outputPathOf workDir env) ∧
    (infer INFERENCE_CMD workDir renv env rm).outcome =
      .response 500 (.obj [("detail",
        .str ("Inference error: " ++ e.message))]) := by
  have hrun : ∀ r : RunEnv, run_inference_cli INFERENCE_CMD r
      (inputPathOf workDir env) (outputPathOf workDir env) = .error e := by
    intro r
    unfold run_inference_cli
    rw [if_neg (by simp [hplace.1, hplace.2]), hfmt]
  exact ⟨hrun renv, (hrun renv).trans (hrun renv₂).symm,
    by simp [infer, hname, hread, hn, hrun renv]⟩

/-- Witness for the amended C10: the embedded-JSON template raises
`KeyError` on the field name `"ok"` and the request is answered 500. -/
theorem format_failure_yields_500_witness :
    strContains embeddedJsonCmd "{input}" = true ∧
    strContains embeddedJsonCmd "{output}" = true ∧
    (infer embeddedJsonCmd "/tmp/csm_api" stubRenv sampleEnv false).outcome =
      .response 500 (.obj [("detail",
        .str ("Inference error: " ++ PyError.message (.keyError "\"ok\"")))]) :=
  ⟨by decide, by decide,
    (format_failure_yields_500 embeddedJsonCmd "/tmp/csm_api" stubRenv stubRenv
      sampleEnv false 4 (.keyError "\"ok\"") ⟨by decide, by decide⟩ (by rfl)
      (by decide) rfl (by decide)).2.2⟩

end CsmApi
